import Mathlib

/-!
Shallow embedding of `api_solver.py` (Turnstile-Solver).

Python strings are sequences of code points, modelled as Lean `String`
values; the string primitives the source uses (`str.split(':')`,
`'...' in s`, `str.strip()`, `str.rfind(':')` with slicing,
`':'.join(...)`) are re-implemented below by structural recursion over
`List Char`, mirroring Python's semantics, so that every definition
reduces inside the kernel.

External effects (file system, Playwright browser calls, `time.time()`,
`random.choice`) are modelled as environment records supplying each
call's outcome; an external call that raises is an explicit outcome
constructor.  Floating point elapsed times are abstracted to `Nat`
clock readings (the code only ever stores `now - start`).
-/

/-- Python truthiness of an optional string (`None` and `""` are falsy). -/
def pyTruthy : Option String → Bool
  | none => false
  | some s => s ≠ ""

/-- Does the first list occur as a leading segment of the second?
(Helper for Python's substring containment test.) -/
def listStartsWith : List Char → List Char → Bool
  | [], _ => true
  | _ :: _, [] => false
  | a :: as, b :: bs => a == b && listStartsWith as bs

/-- Does `pat` occur as a contiguous sublist?  (Python `pat in s`.) -/
def listHasSub (pat : List Char) : List Char → Bool
  | [] => listStartsWith pat []
  | c :: rest => listStartsWith pat (c :: rest) || listHasSub pat rest

/-- Python `pat in s` on strings. -/
def strContains (s pat : String) : Bool := listHasSub pat.toList s.toList

/-- Accumulator-style worker for Python `str.split(c)`. -/
def splitOnCharAux (c : Char) : List Char → List Char → List (List Char)
  | [], acc => [acc.reverse]
  | x :: xs, acc =>
    if x == c then acc.reverse :: splitOnCharAux c xs []
    else splitOnCharAux c xs (x :: acc)

/-- Python `s.split(c)` for a single-character separator: splits at every
occurrence, keeping empty pieces (`"".split(':') == [""]`). -/
def pySplit (s : String) (c : Char) : List String :=
  (splitOnCharAux c s.toList []).map String.mk

/-- Python `c.join(xs)` for a single-character separator. -/
def pyJoin (c : Char) : List String → String
  | [] => ""
  | [x] => x
  | x :: y :: xs => x ++ String.singleton c ++ pyJoin c (y :: xs)

/-- Python `s.strip()`: remove leading and trailing whitespace. -/
def pyStrip (s : String) : String :=
  String.mk (((s.toList.dropWhile Char.isWhitespace).reverse.dropWhile
      Char.isWhitespace).reverse)

/-- Python `remaining.rfind(':')` together with the two slices
`remaining[:idx]` / `remaining[idx+1:]`: splits a character list at its
last `':'`; `none` when the list has no colon (`':' in remaining` false). -/
def splitAtLastColon : List Char → Option (List Char × List Char)
  | [] => none
  | c :: rest =>
    match splitAtLastColon rest with
    | some (a, b) => some (c :: a, b)
    | none => if c == ':' then some ([], rest) else none

/-- The `context_options["proxy"]` dictionary built by
`_solve_turnstile` (a `server` plus optional credential keys). -/
structure ProxyConfig where
  server : String
  username : Option String
  password : Option String
  deriving DecidableEq, Repr

/-- Outcome of the proxy-configuration block, lines 203-242: either no
`"proxy"` key is placed in `context_options`, or a config is placed, or
an exception (`ValueError` from tuple unpacking, `AttributeError` from
`None.split`) propagates out of the block. -/
inductive ProxyOutcome where
  | noProxy
  | config (c : ProxyConfig)
  | raiseExc
  deriving DecidableEq, Repr

/-- Lines 203-242 of `_solve_turnstile`: build the proxy entry of
`context_options` from `used_proxy`.  Faithful details:
line 206 splits the API parameter `proxy`, not `used_proxy`
(`parts = proxy.split(':')`), and unpacks it into exactly five names;
the non-scheme branch splits `used_proxy`, and for four or more fields
rejoins `parts[2:]` with `':'` and slices at `remaining.rfind(':')`. -/
def resolveContextProxy (usedProxy apiProxy : Option String) : ProxyOutcome :=
  match usedProxy with
  | none => .noProxy
  | some up =>
    if up = "" then .noProxy          -- `if used_proxy:` is falsy
    else if strContains up "://" then
      -- `parts = proxy.split(':')` : the *API parameter* is split
      match apiProxy with
      | none => .raiseExc             -- AttributeError: None has no .split
      | some p =>
        match pySplit p ':' with
        | [s, h, pt, u, pw] =>
            .config ⟨s ++ "://" ++ h ++ ":" ++ pt, some u, some pw⟩
        | _ => .raiseExc              -- ValueError: 5-name unpacking fails
    else
      let parts := pySplit up ':'
      if parts.length = 2 then
        .config ⟨"http://" ++ parts.getD 0 "" ++ ":" ++ parts.getD 1 "",
          none, none⟩
      else if parts.length = 3 then
        .config ⟨parts.getD 2 "" ++ "://" ++ parts.getD 0 "" ++ ":" ++
          parts.getD 1 "", none, none⟩
      else if 4 ≤ parts.length then
        let host := parts.getD 0 ""
        let port := parts.getD 1 ""
        let remaining := pyJoin ':' (parts.drop 2)
        match splitAtLastColon remaining.toList with
        | some (u, pw) =>
            .config ⟨"http://" ++ host ++ ":" ++ port,
              some (String.mk u), some (String.mk pw)⟩
        | none =>
            .config ⟨"http://" ++ host ++ ":" ++ port, some remaining, some ""⟩
      else .noProxy                   -- "Invalid proxy format" is only logged

/-- A value stored in `self.results` by this program: either the plain
string sentinel `"CAPTCHA_NOT_READY"` written at task creation, or the
dictionary `{"value": ..., "elapsed_time": ...}` written on completion. -/
inductive RVal where
  | str (s : String)
  | obj (value : String) (elapsed : Nat)
  deriving DecidableEq, Repr

/-- Python `needle in r` for a stored result: substring containment when
the value is a string, key membership when it is the
`{"value", "elapsed_time"}` dictionary. -/
def pyInResult (needle : String) (r : RVal) : Bool :=
  match r with
  | .str s => strContains s needle
  | .obj _ _ => needle == "value" || needle == "elapsed_time"

/-- `get_result` (lines 370-383): `400` when the `id` parameter is
missing, empty (falsy) or unknown; otherwise the stored value with
status `422` when `"CAPTCHA_FAIL" in result` and `200` otherwise. -/
def get_result (results : List (String × RVal)) (taskId : Option String) :
    Nat × Option RVal :=
  match taskId with
  | none => (400, none)
  | some id =>
    if id = "" then (400, none)
    else
      match results.lookup id with
      | none => (400, none)
      | some r => (if pyInResult "CAPTCHA_FAIL" r then 422 else 200, some r)

/-- Outcome of one `page.input_value("[name=cf-turnstile-response]")`
call inside the retry loop: the read raised (timeout or other), or it
returned a string. -/
inductive ReadOutcome where
  | err
  | val (s : String)
  deriving DecidableEq, Repr

/-- Environment of one loop attempt: the read's outcome, whether the
subsequent `.click()` raises, and the `time.time()` reading taken if
this attempt ends the loop. -/
structure AttemptEnv where
  read : ReadOutcome
  clickErr : Bool
  t : Nat
  deriving Repr

/-- Observable steps of the retry loop, with the millisecond bounds the
code passes (`timeout=2000` on the read, `timeout=1000` on the click,
`asyncio.sleep(0.5)`). -/
inductive LoopAction where
  | readAttempt (timeoutMs : Nat)
  | clickWidget (timeoutMs : Nat)
  | sleepMs (ms : Nat)
  | storeResult
  | persist
  deriving DecidableEq, Repr

/-- Does this attempt's read return a non-empty string
(`turnstile_check == ""` is false)? -/
def attemptHit (a : AttemptEnv) : Bool :=
  match a.read with
  | .err => false
  | .val s => s ≠ ""

/-- The string an attempt's read returned (`""` for a raising read). -/
def readVal (a : AttemptEnv) : String :=
  match a.read with
  | .err => ""
  | .val s => s

/-- Trace of a non-final attempt: a raising read is swallowed by the
bare `except: pass`; an empty read clicks the widget (timeout 1000 ms)
and, when the click does not raise, sleeps 500 ms. -/
def missTrace (a : AttemptEnv) : List LoopAction :=
  match a.read with
  | .err => [.readAttempt 2000]
  | .val _ =>
    if a.clickErr then [.readAttempt 2000, .clickWidget 1000]
    else [.readAttempt 2000, .clickWidget 1000, .sleepMs 500]

/-- Trace of the final, successful attempt: read, store the result,
`_save_results()`, `break`. -/
def hitTrace : List LoopAction := [.readAttempt 2000, .storeResult, .persist]

/-- Lines 282-300 of `_solve_turnstile`, the `for _ in range(20)` retry
loop, generalized over the remaining iteration budget `fuel` and the
current attempt index `k`.  Returns the stored success (token and
`round(time.time() - start_time)` modelled as `t - start`) if any
attempt read a non-empty response, together with the action trace. -/
def pollLoopAux (att : Nat → AttemptEnv) (start : Nat) :
    Nat → Nat → Option (String × Nat) × List LoopAction
  | _, 0 => (none, [])
  | k, fuel + 1 =>
    if attemptHit (att k) then
      (some (readVal (att k), (att k).t - start), hitTrace)
    else
      let r := pollLoopAux att start (k + 1) fuel
      (r.1, missTrace (att k) ++ r.2)

/-- The retry loop as the code runs it: 20 iterations from attempt 0. -/
def pollLoop (att : Nat → AttemptEnv) (start : Nat) :
    Option (String × Nat) × List LoopAction :=
  pollLoopAux att start 0 20

/-- The polling phase as the specification describes it: among the 20
attempts, find the first whose read is non-empty; the loop performs the
miss trace of every earlier attempt and stops there, storing that value
and the elapsed time; with no such attempt, all 20 miss traces run and
nothing is stored. -/
def pollSpec (att : Nat → AttemptEnv) (start : Nat) :
    Option (String × Nat) × List LoopAction :=
  match (List.range 20).find? (fun k => attemptHit (att k)) with
  | some k =>
    (some (readVal (att k), (att k).t - start),
      (((List.range k).map (fun j => missTrace (att j))).flatten) ++ hitTrace)
  | none =>
    (none, ((List.range 20).map (fun j => missTrace (att j))).flatten)

/-- Outcome of `page.evaluate("window.turnstileToken")`: an exception,
or the JavaScript value (`None` or a string). -/
inductive EvalOutcome where
  | exc
  | ok (tok : Option String)
  deriving DecidableEq, Repr

/-- Environment of the fallback block: the evaluate outcome and the
`time.time()` reading taken in whichever branch executes. -/
structure FallbackEnv where
  eval : EvalOutcome
  t : Nat
  deriving Repr

/-- What the fallback block did: whether its body ran, the resulting
stored value for the task, and whether `_save_results()` was called. -/
structure FallbackResult where
  ran : Bool
  mem : RVal
  persisted : Bool
  deriving DecidableEq, Repr

/-- Lines 302-325 of `_solve_turnstile`: the fallback check.  Its gate
compares the task's current stored value with the string
`"CAPTCHA_NOT_READY"` (a dictionary result compares unequal).  When it
runs: a truthy token (`window_token and window_token != ""`) stores
`{"value": token, "elapsed_time": ...}` and persists; a `None` or empty
token stores `{"value": "CAPTCHA_FAIL", ...}` without persisting; an
exception in the block is caught and also stores the failure object
without persisting. -/
def runFallback (cur : RVal) (fb : FallbackEnv) (start : Nat) :
    FallbackResult :=
  if cur = RVal.str "CAPTCHA_NOT_READY" then
    match fb.eval with
    | .exc => ⟨true, .obj "CAPTCHA_FAIL" (fb.t - start), false⟩
    | .ok tok =>
      if pyTruthy tok then ⟨true, .obj (tok.getD "") (fb.t - start), true⟩
      else ⟨true, .obj "CAPTCHA_FAIL" (fb.t - start), false⟩
  else ⟨false, cur, false⟩

/-- Per-task parameters and process-wide settings that
`_solve_turnstile` consults: the API `proxy` and `useragent` query
parameters, `self.useragent`, and `self.proxy_support`. -/
structure SolverCfg where
  proxy : Option String
  useragent : Option String
  serverUseragent : Option String
  proxySupport : Bool

/-- External-world outcomes for one `_solve_turnstile` invocation:
`proxies.txt` content (`none` = `FileNotFoundError`), the randomness of
`random.choice`, whether `new_context` / `new_page` and the page-setup
block (route, goto, the two load-state waits, the selector eval)
succeed, the per-attempt loop environment, the fallback environment,
and the `time.time()` readings. -/
structure SolverEnv where
  fileLines : Option (List String)
  pick : Nat
  newContextOk : Bool
  newPageOk : Bool
  setupOk : Bool
  att : Nat → AttemptEnv
  fb : FallbackEnv
  tStart : Nat
  tOuterExc : Nat

/-- Lines 176-195 of `_solve_turnstile`: `used_proxy` resolution.  The
API parameter wins when truthy; otherwise, with proxy support on, the
stripped non-blank lines of `proxies.txt` are collected and
`random.choice` picks one (`None` when the file is absent or empty). -/
def resolveUsedProxy (cfg : SolverCfg) (env : SolverEnv) : Option String :=
  if pyTruthy cfg.proxy then cfg.proxy
  else if cfg.proxySupport then
    match env.fileLines with
    | none => none
    | some lines =>
      let proxies := (lines.map pyStrip).filter (fun l => l ≠ "")
      if proxies.isEmpty then none
      else some (proxies.getD (env.pick % proxies.length) "")
  else none

/-- Result of one task's life (creation in `process_turnstile` plus the
`_solve_turnstile` call): the resolved `used_proxy`; the task's final
in-memory stored value; the task's entry in `results.json` after the
run (`diskStart` being its entry before); the loop's action trace;
whether an exception escaped `_solve_turnstile`; whether the browsing
context was created and closed; whether the pool slot was put back;
whether the fallback block ran; and whether some solved write ran. -/
structure SolveResult where
  usedProxy : Option String
  mem : RVal
  disk : Option RVal
  loopTrace : List LoopAction
  escaped : Bool
  contextCreated : Bool
  contextClosed : Bool
  released : Bool
  fallbackRan : Bool
  solved : Bool

/-- Lines 354-355 of `process_turnstile` and 170-337 of
`_solve_turnstile`, after the pool slot is acquired (line 174): the
task is created with the `"CAPTCHA_NOT_READY"` sentinel (no persist);
`used_proxy` is resolved; the `context_options` proxy block runs
*before* the `try`, so a raised exception escapes with the slot never
released; so do `new_context` and `new_page` failures.  Inside the
`try`, a page-setup failure is caught by the outer handler, which
stores the failure object without persisting; otherwise the retry loop
and then the fallback check run.  The `finally` closes the context and
puts the slot back. -/
def runTask (cfg : SolverCfg) (env : SolverEnv) (diskStart : Option RVal) :
    SolveResult :=
  let mem0 := RVal.str "CAPTCHA_NOT_READY"
  let up := resolveUsedProxy cfg env
  match resolveContextProxy up cfg.proxy with
  | .raiseExc =>
    ⟨up, mem0, diskStart, [], true, false, false, false, false, false⟩
  | _ =>
    if !env.newContextOk then
      ⟨up, mem0, diskStart, [], true, false, false, false, false, false⟩
    else if !env.newPageOk then
      ⟨up, mem0, diskStart, [], true, true, false, false, false, false⟩
    else if !env.setupOk then
      ⟨up, .obj "CAPTCHA_FAIL" (env.tOuterExc - env.tStart), diskStart, [],
        false, true, true, true, false, false⟩
    else
      let r := pollLoop env.att env.tStart
      let mem1 := match r.1 with
        | some (v, e) => RVal.obj v e
        | none => mem0
      let disk1 := match r.1 with
        | some (v, e) => some (RVal.obj v e)
        | none => diskStart
      let fbr := runFallback mem1 env.fb env.tStart
      ⟨up, fbr.mem, if fbr.persisted then some fbr.mem else disk1, r.2,
        false, true, true, true, fbr.ran,
        match r.1 with
        | some _ => true
        | none => fbr.persisted⟩

lemma missFlatten_succ (att : Nat → AttemptEnv) (k m : Nat) :
    ((List.range (m + 1)).map (fun j => missTrace (att (k + j)))).flatten
      = missTrace (att k) ++
        ((List.range m).map (fun j => missTrace (att (k + 1 + j)))).flatten := by
  rw [List.range_succ_eq_map]
  simp only [List.map_cons, List.map_map, List.flatten_cons, Nat.add_zero]
  have hfun : ((fun j => missTrace (att (k + j))) ∘ Nat.succ)
      = fun j => missTrace (att (k + 1 + j)) := by
    funext j
    show missTrace (att (k + (j + 1))) = missTrace (att (k + 1 + j))
    rw [Nat.add_comm j 1, ← Nat.add_assoc]
  rw [hfun]

lemma pollLoopAux_eq (att : Nat → AttemptEnv) (start : Nat) :
    ∀ (fuel k : Nat),
      pollLoopAux att start k fuel =
        match (List.range fuel).find? (fun i => attemptHit (att (k + i))) with
        | some i =>
          (some (readVal (att (k + i)), (att (k + i)).t - start),
            (((List.range i).map (fun j => missTrace (att (k + j)))).flatten)
              ++ hitTrace)
        | none =>
          (none,
            ((List.range fuel).map (fun j => missTrace (att (k + j)))).flatten) := by
  intro fuel
  induction fuel with
  | zero => intro k; simp [pollLoopAux]
  | succ n ih =>
    intro k
    by_cases h : attemptHit (att k) = true
    · have h0 : (List.range (n + 1)).find? (fun i => attemptHit (att (k + i)))
          = some 0 := by
        rw [List.range_succ_eq_map]
        exact List.find?_cons_of_pos _ (by simpa using h)
      rw [h0]
      simp [pollLoopAux, h]
    · have hstep : (List.range (n + 1)).find? (fun i => attemptHit (att (k + i)))
          = Option.map Nat.succ
              ((List.range n).find? (fun i => attemptHit (att (k + 1 + i)))) := by
        have hfun : ((fun i => attemptHit (att (k + i))) ∘ Nat.succ)
            = fun i => attemptHit (att (k + 1 + i)) := by
          funext i
          show attemptHit (att (k + (i + 1))) = attemptHit (att (k + 1 + i))
          rw [Nat.add_comm i 1, ← Nat.add_assoc]
        rw [List.range_succ_eq_map,
          List.find?_cons_of_neg _ (by simpa using h), List.find?_map, hfun]
      have ihn := ih (k + 1)
      cases hres : (List.range n).find? (fun i => attemptHit (att (k + 1 + i))) with
      | none =>
        rw [hstep, hres]
        rw [hres] at ihn
        simp only [Option.map_none']
        simp only [pollLoopAux, h, if_false, Bool.false_eq_true, ihn]
        exact congrArg _ (missFlatten_succ att k n).symm
      | some i =>
        rw [hstep, hres]
        rw [hres] at ihn
        simp only [Option.map_some', Nat.succ_eq_add_one]
        simp only [pollLoopAux, h, if_false, Bool.false_eq_true, ihn]
        have hidx : k + (i + 1) = k + 1 + i := by omega
        rw [hidx, missFlatten_succ att k i, List.append_assoc]

lemma pollLoop_eq (att : Nat → AttemptEnv) (start : Nat) :
    pollLoop att start = pollSpec att start := by
  have h := pollLoopAux_eq att start 20 0
  simp only [Nat.zero_add] at h
  exact h

lemma runFallback_obj (v : String) (e : Nat) (fb : FallbackEnv) (start : Nat) :
    runFallback (RVal.obj v e) fb start = ⟨false, RVal.obj v e, false⟩ := by
  simp [runFallback]

lemma splitAtLastColon_of_not_mem (l : List Char) (h : (':' : Char) ∉ l) :
    splitAtLastColon l = none := by
  induction l with
  | nil => rfl
  | cons c rest ih =>
    have hc : ¬(c = ':') := fun hc => h (hc ▸ List.mem_cons_self c rest)
    have hr : (':' : Char) ∉ rest := fun hm => h (List.mem_cons_of_mem c hm)
    simp [splitAtLastColon, ih hr, hc]

lemma splitAtLastColon_append (x y : List Char) (h : (':' : Char) ∉ y) :
    splitAtLastColon (x ++ ':' :: y) = some (x, y) := by
  induction x with
  | nil => simp [splitAtLastColon, splitAtLastColon_of_not_mem y h]
  | cons c cs ih => simp [splitAtLastColon, ih]

lemma pyJoin_toList_concat (mid : List String) (lastp : String) (h : mid ≠ []) :
    (pyJoin ':' (mid ++ [lastp])).toList
      = (pyJoin ':' mid).toList ++ ':' :: lastp.toList := by
  induction mid with
  | nil => contradiction
  | cons x xs ih =>
    cases xs with
    | nil =>
      simp [pyJoin, String.toList, String.data_append, String.singleton]
    | cons y ys =>
      have ih2 := ih (by simp)
      simp only [String.toList, List.cons_append] at ih2 ⊢
      simp only [pyJoin, String.data_append] at ih2 ⊢
      rw [ih2]
      simp [List.append_assoc]

/-- Claim C1 (refuted by the code, a code bug):  the claim says the
browsing context is closed and the pool slot released on every path out
of a solve, including when proxy-string parsing raises.  In the code
the slot is taken at line 174 but the `try/finally` only starts at line
255: parsing the documented proxy format `http://127.0.0.1:8080`
raises `ValueError` (its colon-split has 3 fields, unpacked into 5), the
exception escapes `_solve_turnstile`, and the run ends with the context
never closed and the slot never put back — the pool permanently loses a
browser. -/
theorem scheme_proxy_crash_leaks_pool_slot :
    (runTask ⟨some "http://127.0.0.1:8080", none, none, false⟩
        ⟨none, 0, true, true, true, (fun _ => ⟨ReadOutcome.err, false, 0⟩),
          ⟨EvalOutcome.exc, 0⟩, 0, 0⟩ none).escaped = true ∧
    (runTask ⟨some "http://127.0.0.1:8080", none, none, false⟩
        ⟨none, 0, true, true, true, (fun _ => ⟨ReadOutcome.err, false, 0⟩),
          ⟨EvalOutcome.exc, 0⟩, 0, 0⟩ none).released = false ∧
    (runTask ⟨some "http://127.0.0.1:8080", none, none, false⟩
        ⟨none, 0, true, true, true, (fun _ => ⟨ReadOutcome.err, false, 0⟩),
          ⟨EvalOutcome.exc, 0⟩, 0, 0⟩ none).contextClosed = false := by decide

/-- Claim C2 (refuted by the code, a code bug): the claim says a stored
failure result answers the poll with 422.  The code stores failures as
the dictionary `{"value": "CAPTCHA_FAIL", "elapsed_time": ...}`, and
`"CAPTCHA_FAIL" in result` on a dictionary tests key membership, which
is false; so a failed task is served with status 200, not 422. -/
theorem failed_task_polls_as_200 :
    get_result [("t", RVal.obj "CAPTCHA_FAIL" 3)] (some "t")
      = (200, some (RVal.obj "CAPTCHA_FAIL" 3)) := by decide

/-- Claim C3 (refuted by the code, a code bug): the claim says a proxy
string that parses into no recognized shape degrades to "no proxy" and
never raises.  For a string containing `"://"` whose colon-split does
not have exactly five fields — including the format
`http://127.0.0.1:8080` advertised by the server's own index page — the
five-name unpacking raises `ValueError` out of proxy resolution. -/
theorem scheme_proxy_parse_raises :
    resolveContextProxy (some "http://127.0.0.1:8080")
        (some "http://127.0.0.1:8080") = ProxyOutcome.raiseExc := by decide

/-- Claim C4, counterexample: a run in which all 20 reads come back
empty and the fallback token is `None` completes the task as Failed
(`{"value": "CAPTCHA_FAIL", ...}` in memory) yet never calls
`_save_results()`, so the persisted store still lacks the task: the
Failed result is not reproducible by reloading persisted state. -/
theorem failed_result_not_persisted_cex :
    (runTask ⟨none, none, none, false⟩
        ⟨none, 0, true, true, true, (fun _ => ⟨ReadOutcome.val "", false, 0⟩),
          ⟨EvalOutcome.ok none, 7⟩, 0, 0⟩ none).mem
      = RVal.obj "CAPTCHA_FAIL" 7 ∧
    (runTask ⟨none, none, none, false⟩
        ⟨none, 0, true, true, true, (fun _ => ⟨ReadOutcome.val "", false, 0⟩),
          ⟨EvalOutcome.ok none, 7⟩, 0, 0⟩ none).disk = none := by decide

/-- Claim C4 as amended: only the Solved transitions (polling-loop
success, line 297, and fallback success, line 315) are followed by a
rewrite of the mapping to the external store; task creation and every
Failed transition mutate only the in-memory mapping.  Thus after any
run, the task's persisted entry is its final in-memory result exactly
when some solved write happened, and is otherwise the untouched
pre-task entry. -/
theorem solved_iff_persisted (cfg : SolverCfg) (env : SolverEnv)
    (d0 : Option RVal) :
    (runTask cfg env d0).disk =
      if (runTask cfg env d0).solved then some ((runTask cfg env d0).mem)
      else d0 := by
  unfold runTask
  cases hp : resolveContextProxy (resolveUsedProxy cfg env) cfg.proxy
  case raiseExc => simp [hp]
  all_goals (
    simp only [hp]
    cases hnc : env.newContextOk
    · simp [hnc]
    cases hnp : env.newPageOk
    · simp [hnp]
    cases hsu : env.setupOk
    · simp [hsu]
    simp only [hnc, hnp, hsu, Bool.not_true, Bool.false_eq_true, if_false]
    cases hr : (pollLoop env.att env.tStart).1 with
    | none => simp only [hr, runFallback]
    | some vp =>
      obtain ⟨v, e⟩ := vp
      simp [hr, runFallback_obj])

/-- Claim C5, counterexample: for the scheme-delimited string
`http://1.2.3.4:8080:u:p` the code does not separate the scheme: it
splits the whole string on `':'`, so the second field is `//1.2.3.4`
and the resulting server is `http:////1.2.3.4:8080`, not the claimed
`scheme://host:port` form `http://1.2.3.4:8080`. -/
theorem scheme_not_separated_cex :
    resolveContextProxy (some "http://1.2.3.4:8080:u:p")
        (some "http://1.2.3.4:8080:u:p")
      = ProxyOutcome.config ⟨"http:////1.2.3.4:8080", some "u", some "p"⟩ ∧
    ("http:////1.2.3.4:8080" : String) ≠ "http://1.2.3.4:8080" := by decide

/-- Claim C5 as amended: when `used_proxy` contains `"://"`, the code
splits the *API `proxy` parameter* (not `used_proxy`) on every colon
without removing the `"//"`; exactly five fields are required (anything
else raises); the configuration's server is
`field1 ++ "://" ++ field2 ++ ":" ++ field3` — with the second field
retaining its leading `"//"` when the delimiter was `"://"` — and the
last two fields become username and password. -/
theorem scheme_branch_splits_api_param (up p a b c d e : String)
    (h1 : strContains up "://" = true)
    (h2 : pySplit p ':' = [a, b, c, d, e]) :
    resolveContextProxy (some up) (some p) =
      ProxyOutcome.config ⟨a ++ "://" ++ b ++ ":" ++ c, some d, some e⟩ := by
  have hup : up ≠ "" := by
    intro hemp
    rw [hemp] at h1
    exact absurd h1 (by decide)
  simp [resolveContextProxy, hup, h1, h2]

/-- Witness for the amended claim C5 at a concrete input: the string
that is split is the API parameter even when `used_proxy` differs. -/
theorem scheme_branch_splits_api_param_witness :
    resolveContextProxy (some "x://y") (some "s:h:1:u:pw") =
      ProxyOutcome.config ⟨"s" ++ "://" ++ "h" ++ ":" ++ "1",
        some "u", some "pw"⟩ :=
  scheme_branch_splits_api_param "x://y" "s:h:1:u:pw" "s" "h" "1" "u" "pw"
    (by decide) (by decide)

/-- Claim C6 (refuted by the code, a code bug): the claim says the
string parsed and applied to the context is the resolved proxy.  With
no API proxy and proxy support on, resolution picks the file line
`http://1.2.3.4:8080:u:p`; but line 206 calls `.split` on the API
parameter `proxy`, which is `None`, so the solve raises
`AttributeError` instead of applying the resolved proxy (and, being
before the `try`, also leaks the pool slot). -/
theorem file_scheme_proxy_not_applied :
    (runTask ⟨none, none, none, true⟩
        ⟨some ["http://1.2.3.4:8080:u:p"], 0, true, true, true,
          (fun _ => ⟨ReadOutcome.err, false, 0⟩), ⟨EvalOutcome.exc, 0⟩, 0, 0⟩
        none).usedProxy = some "http://1.2.3.4:8080:u:p" ∧
    (runTask ⟨none, none, none, true⟩
        ⟨some ["http://1.2.3.4:8080:u:p"], 0, true, true, true,
          (fun _ => ⟨ReadOutcome.err, false, 0⟩), ⟨EvalOutcome.exc, 0⟩, 0, 0⟩
        none).escaped = true ∧
    (runTask ⟨none, none, none, true⟩
        ⟨some ["http://1.2.3.4:8080:u:p"], 0, true, true, true,
          (fun _ => ⟨ReadOutcome.err, false, 0⟩), ⟨EvalOutcome.exc, 0⟩, 0, 0⟩
        none).released = false := by decide

/-- Claim C7, counterexample: for `h:1:u:p:q` — credentials `u` with
password `p:q` — the code splits the rejoined remainder `u:p:q` at its
*last* colon, yielding username `u:p` and password `q`: the embedded
colon lands in the username, not the password, so colons inside a
password are not preserved. -/
theorem password_colon_not_preserved_cex :
    resolveContextProxy (some "h:1:u:p:q") none
      = ProxyOutcome.config ⟨"http://h:1", some "u:p", some "q"⟩ ∧
    ProxyOutcome.config (⟨"http://h:1", some "u:p", some "q"⟩ : ProxyConfig)
      ≠ ProxyOutcome.config ⟨"http://h:1", some "u", some "p:q"⟩ := by decide

/-- Claim C7 as amended: for a proxy string without `"://"`, exactly
2 colon-delimited fields give `host:port` with scheme `http`; exactly
3 give `host:port:scheme`; 4 or more give `host:port:username:password`
where the fields after the second are rejoined with `':'` and split at
the *last* remaining colon — so embedded colons are preserved inside
the username while the password (the final field) never contains one —
with scheme defaulting to `http`. -/
theorem no_scheme_branch_cases (s a b : String) (rest : List String)
    (h1 : strContains s "://" = false)
    (h2 : pySplit s ':' = a :: b :: rest)
    (h3 : (':' : Char) ∉ (rest.getLastD "").toList) :
    (rest.length = 0 →
      resolveContextProxy (some s) none =
        ProxyOutcome.config ⟨"http://" ++ a ++ ":" ++ b, none, none⟩) ∧
    (rest.length = 1 →
      resolveContextProxy (some s) none =
        ProxyOutcome.config ⟨rest.getD 0 "" ++ "://" ++ a ++ ":" ++ b,
          none, none⟩) ∧
    (2 ≤ rest.length →
      resolveContextProxy (some s) none =
        ProxyOutcome.config ⟨"http://" ++ a ++ ":" ++ b,
          some (pyJoin ':' rest.dropLast), some (rest.getLastD "")⟩) := by
  have hs : s ≠ "" := by
    intro hemp
    rw [hemp] at h2
    simp [pySplit, splitOnCharAux] at h2
  refine ⟨?_, ?_, ?_⟩
  · intro hlen
    rw [List.length_eq_zero] at hlen
    subst hlen
    simp [resolveContextProxy, hs, h1, h2]
  · intro hlen
    rw [List.length_eq_one] at hlen
    obtain ⟨c, hc⟩ := hlen
    subst hc
    simp [resolveContextProxy, hs, h1, h2]
  · intro hlen
    have hne : rest ≠ [] := by
      intro hemp; rw [hemp] at hlen; simp at hlen
    have hlast : rest.getLastD "" = rest.getLast hne := by
      rw [List.getLastD_eq_getLast?, List.getLast?_eq_getLast rest hne]
      rfl
    have hrest : rest.dropLast ++ [rest.getLastD ""] = rest := by
      rw [hlast]
      exact List.dropLast_append_getLast hne
    have hmid : rest.dropLast ≠ [] := by
      intro hemp
      have hlen1 : rest.length = 1 := by
        have := congrArg List.length hrest
        rw [hemp] at this
        simpa using this.symm
      omega
    have hjoin : (pyJoin ':' rest).toList
        = (pyJoin ':' rest.dropLast).toList ++ ':' ::
            (rest.getLastD "").toList := by
      conv_lhs => rw [← hrest]
      exact pyJoin_toList_concat rest.dropLast (rest.getLastD "") hmid
    have hsplit : splitAtLastColon (pyJoin ':' rest).toList
        = some ((pyJoin ':' rest.dropLast).toList,
            (rest.getLastD "").toList) := by
      rw [hjoin]
      exact splitAtLastColon_append _ _ h3
    have hl2 : ¬((a :: b :: rest).length = 2) := by
      simp only [List.length_cons]; omega
    have hl3 : ¬((a :: b :: rest).length = 3) := by
      simp only [List.length_cons]; omega
    have hl4 : 4 ≤ (a :: b :: rest).length := by
      simp only [List.length_cons]; omega
    simp only [resolveContextProxy, hs, h1, h2, hl2, hl3, hl4, if_false,
      if_true, Bool.false_eq_true, List.drop, List.getD, hsplit]
    simp [hsplit]

/-- Witness for the amended claim C7 at the four-or-more-field input
`h:1:u:p:q`. -/
theorem no_scheme_branch_cases_witness :
    resolveContextProxy (some "h:1:u:p:q") none
      = ProxyOutcome.config ⟨"http://" ++ "h" ++ ":" ++ "1",
          some (pyJoin ':' (["u", "p", "q"] : List String).dropLast),
          some ((["u", "p", "q"] : List String).getLastD "")⟩ :=
  (no_scheme_branch_cases "h:1:u:p:q" "h" "1" ["u", "p", "q"]
    (by decide) (by decide) (by decide)).2.2 (by decide)

/-- Claim C8 (confirmed): the retry loop equals its specification — at
most 20 attempts, each reading the hidden response field with a 2000 ms
timeout; an empty read clicks the widget (1000 ms timeout) and sleeps
500 ms before the next attempt; the first non-empty read stores the
value with the elapsed time since `start_time`, persists immediately
and stops the loop; a raising attempt is swallowed and the loop
continues. -/
theorem polling_loop_refines_spec (att : Nat → AttemptEnv) (start : Nat) :
    pollLoop att start = pollSpec att start :=
  pollLoop_eq att start

/-- Claim C9 (confirmed): the fallback block runs exactly when the
task's stored value still equals the `"CAPTCHA_NOT_READY"` sentinel;
when it runs, a present non-empty `window.turnstileToken` stores the
token with elapsed time and persists, while a missing or empty token
(or an exception during the check) stores `CAPTCHA_FAIL` with the
elapsed time, without persisting; when it does not run the stored value
is untouched. -/
theorem fallback_gate_and_outcomes (cur : RVal) (fb : FallbackEnv)
    (start : Nat) :
    ((runFallback cur fb start).ran = true ↔
      cur = RVal.str "CAPTCHA_NOT_READY")
  ∧ (∀ tok : String, cur = RVal.str "CAPTCHA_NOT_READY" →
      fb.eval = EvalOutcome.ok (some tok) → tok ≠ "" →
      runFallback cur fb start = ⟨true, RVal.obj tok (fb.t - start), true⟩)
  ∧ (cur = RVal.str "CAPTCHA_NOT_READY" →
      (fb.eval = EvalOutcome.exc ∨ fb.eval = EvalOutcome.ok none ∨
        fb.eval = EvalOutcome.ok (some "")) →
      runFallback cur fb start
        = ⟨true, RVal.obj "CAPTCHA_FAIL" (fb.t - start), false⟩)
  ∧ (cur ≠ RVal.str "CAPTCHA_NOT_READY" →
      runFallback cur fb start = ⟨false, cur, false⟩) := by
  refine ⟨?_, ?_, ?_, ?_⟩
  · by_cases h : cur = RVal.str "CAPTCHA_NOT_READY"
    · simp only [runFallback, if_pos h, h]
      cases hfb : fb.eval with
      | exc => simp
      | ok tok => by_cases ht : pyTruthy tok = true <;> simp [ht]
    · simp [runFallback, h]
  · intro tok hcur hev hne
    have ht : pyTruthy (some tok) = true := by simp [pyTruthy, hne]
    simp [runFallback, hcur, hev, ht]
  · intro hcur hor
    rcases hor with h | h | h <;> simp [runFallback, hcur, h, pyTruthy]
  · intro h
    simp [runFallback, h]

/-- Witness for claim C9 at a concrete solved-by-fallback input. -/
theorem fallback_gate_and_outcomes_witness :
    runFallback (RVal.str "CAPTCHA_NOT_READY")
        ⟨EvalOutcome.ok (some "tok"), 9⟩ 2
      = ⟨true, RVal.obj "tok" 7, true⟩ :=
  (fallback_gate_and_outcomes (RVal.str "CAPTCHA_NOT_READY")
    ⟨EvalOutcome.ok (some "tok"), 9⟩ 2).2.1 "tok" rfl rfl (by decide)

/-- Claim C10 (confirmed): within one solve invocation, once some loop
attempt read a non-empty value, the fallback gate — re-reading the
store with no intervening write — sees the stored object rather than
the `"CAPTCHA_NOT_READY"` string, so the fallback never runs and the
final stored result is exactly the loop's success write. -/
theorem loop_success_skips_fallback (cfg : SolverCfg) (env : SolverEnv)
    (d0 : Option RVal) (k : Nat)
    (hpx : resolveContextProxy (resolveUsedProxy cfg env) cfg.proxy
      ≠ ProxyOutcome.raiseExc)
    (hnc : env.newContextOk = true) (hnp : env.newPageOk = true)
    (hsu : env.setupOk = true)
    (hk : (List.range 20).find? (fun i => attemptHit (env.att i)) = some k) :
    (runTask cfg env d0).fallbackRan = false ∧
    (runTask cfg env d0).mem
      = RVal.obj (readVal (env.att k)) ((env.att k).t - env.tStart) := by
  have hres : (pollLoop env.att env.tStart).1
      = some (readVal (env.att k), (env.att k).t - env.tStart) := by
    rw [pollLoop_eq]
    simp [pollSpec, hk]
  unfold runTask
  cases hp : resolveContextProxy (resolveUsedProxy cfg env) cfg.proxy
  case raiseExc => exact absurd hp hpx
  all_goals simp [hp, hnc, hnp, hsu, hres, runFallback_obj]

/-- Witness for claim C10: success on attempt 2 (time 10, start 3)
yields the loop's result and no fallback. -/
theorem loop_success_skips_fallback_witness :
    (runTask ⟨none, none, none, false⟩
        ⟨none, 0, true, true, true,
          (fun i => if i = 2 then ⟨ReadOutcome.val "TOK", false, 10⟩
            else ⟨ReadOutcome.val "", false, 0⟩),
          ⟨EvalOutcome.exc, 0⟩, 3, 0⟩ none).fallbackRan = false ∧
    (runTask ⟨none, none, none, false⟩
        ⟨none, 0, true, true, true,
          (fun i => if i = 2 then ⟨ReadOutcome.val "TOK", false, 10⟩
            else ⟨ReadOutcome.val "", false, 0⟩),
          ⟨EvalOutcome.exc, 0⟩, 3, 0⟩ none).mem = RVal.obj "TOK" 7 :=
  loop_success_skips_fallback _ _ _ 2 (by decide) rfl rfl rfl (by decide)
